import Mathlib

/-!
Shallow embedding of the session-orchestration core of the tasawwur-rtc
Android SDK (native layer), translated from:

  src/sdk-android/src/main/cpp/utils/json_helper.cpp  (JsonValue, JsonParser)
  src/sdk-android/src/main/cpp/rtc_engine_impl.cpp    (RtcEngineImpl)
  src/sdk-android/src/main/cpp/webrtc_wrapper.cpp     (WebRTCWrapper::Impl)
  src/sdk-android/src/main/cpp/jni_interface.cpp      (handle table)

Conventions of the embedding: C++ strings are Lean `String` (parser
internals run over `List Char`, with `size_t` positions as `Nat`); C++
`double` for JSON numbers is kept as the truncated `Int`, which is the only
way the engine observes it (`static_cast<int>` in `GetInt`); stateful
methods become functions taking and returning the owning object's state;
the event sink is a trace (`List Event`) of the callback invocations the
engine dispatches, in dispatch order; C++ exceptions inside a `try` block
are represented by an explicit injection point parameter, with the `catch`
handler translated as written.  Loops over string positions carry an
explicit iteration bound: each loop's position strictly increases and is
bounded by the string length, so a bound of `length + 1` never cuts an
iteration short.
-/

namespace TasawwurRTC

/-! ## JSON model (utils/json_helper.h / json_helper.cpp) -/

/-- `JsonValue::Type` from json_helper.h. -/
inductive JType where
  | NULL_VALUE
  | BOOLEAN
  | NUMBER
  | STRING
  | ARRAY
  | OBJECT
deriving DecidableEq, Repr

/-- `struct JsonValue`: type tag plus the value fields.  `object_value`
(an `unordered_map`) is an association list with overwrite-on-insert. -/
inductive JsonValue where
  | mk : JType → Bool → Int → String → List JsonValue →
      List (String × JsonValue) → JsonValue

def JsonValue.type : JsonValue → JType
  | .mk t _ _ _ _ _ => t

def JsonValue.bool_value : JsonValue → Bool
  | .mk _ b _ _ _ _ => b

def JsonValue.number_value : JsonValue → Int
  | .mk _ _ n _ _ _ => n

def JsonValue.string_value : JsonValue → String
  | .mk _ _ _ s _ _ => s

def JsonValue.array_value : JsonValue → List JsonValue
  | .mk _ _ _ _ a _ => a

def JsonValue.object_value : JsonValue → List (String × JsonValue)
  | .mk _ _ _ _ _ o => o

/-- A default-constructed `JsonValue`: `type = NULL_VALUE`, `bool_value =
false`, `number_value = 0.0`, empty string/array/object. -/
def JsonValue.defaultValue : JsonValue := .mk .NULL_VALUE false 0 "" [] []

/-- `object_value[key] = value` on an `unordered_map`: overwrite the key if
present, otherwise add it. -/
def insertKV (l : List (String × JsonValue)) (k : String) (v : JsonValue) :
    List (String × JsonValue) :=
  match l with
  | [] => [(k, v)]
  | (k', v') :: rest =>
      if k' = k then (k, v) :: rest else (k', v') :: insertKV rest k v

/-- `object_value.find(key)`. -/
def lookupKV (l : List (String × JsonValue)) (k : String) : Option JsonValue :=
  match l.find? (fun p => p.1 == k) with
  | some p => some p.2
  | none => none

/-- `JsonValue::GetString` (json_helper.cpp): key's string value if this is
an object holding a STRING at the key, else the default. -/
def JsonValue.GetString (v : JsonValue) (key default_value : String) : String :=
  if v.type ≠ JType.OBJECT then default_value
  else
    match lookupKV v.object_value key with
    | some jv => if jv.type = JType.STRING then jv.string_value else default_value
    | none => default_value

/-- `JsonValue::GetInt`: the number at the key cast to `int`, else the
default.  The C++ `double` is observed only through this cast, so the model
stores the truncated integer. -/
def JsonValue.GetInt (v : JsonValue) (key : String) (default_value : Int) : Int :=
  if v.type ≠ JType.OBJECT then default_value
  else
    match lookupKV v.object_value key with
    | some jv => if jv.type = JType.NUMBER then jv.number_value else default_value
    | none => default_value

/-- `JsonValue::GetBool`. -/
def JsonValue.GetBool (v : JsonValue) (key : String) (default_value : Bool) : Bool :=
  if v.type ≠ JType.OBJECT then default_value
  else
    match lookupKV v.object_value key with
    | some jv => if jv.type = JType.BOOLEAN then jv.bool_value else default_value
    | none => default_value

/-- `JsonValue::GetStringArray`: the STRING elements of the ARRAY at the
key, else empty. -/
def JsonValue.GetStringArray (v : JsonValue) (key : String) : List String :=
  if v.type ≠ JType.OBJECT then []
  else
    match lookupKV v.object_value key with
    | some jv =>
        if jv.type = JType.ARRAY then
          jv.array_value.filterMap fun it =>
            if it.type = JType.STRING then some it.string_value else none
        else []
    | none => []

namespace JsonParser

/-- The whitespace set of `Trim`: `" \t\n\r"`. -/
def isTrimWs (c : Char) : Bool :=
  c == ' ' || c == '\t' || c == '\n' || c == '\r'

/-- `std::isspace` as used by the skip loops (C locale). -/
def isSpaceC (c : Char) : Bool :=
  c == ' ' || c == '\t' || c == '\n' || c == '\r' || c == '\x0b' || c == '\x0c'

/-- `JsonParser::Trim`: strip leading and trailing `" \t\n\r"`. -/
def trimC (l : List Char) : List Char :=
  ((l.dropWhile isTrimWs).reverse.dropWhile isTrimWs).reverse

/-- `str.find(c, pos)`: index of the first occurrence of `c` at or after
`pos`, or none (`npos`). -/
def findFrom (l : List Char) (c : Char) (pos : Nat) : Option Nat :=
  match (l.drop pos).findIdx? (fun x => x == c) with
  | some i => some (pos + i)
  | none => none

/-- `str.substr(pos, len)` on the char list. -/
def substrC (l : List Char) (pos len : Nat) : List Char :=
  (l.drop pos).take len

/-- `while (pos < length && std::isspace(str[pos])) pos++`. -/
def skipSpaces (l : List Char) (pos : Nat) : Nat :=
  pos + ((l.drop pos).takeWhile isSpaceC).length

/-- The brace/bracket counting loop of `FindValueEnd`: advance until the
matching close is consumed (or the end of the string). -/
def findMatch (l : List Char) (openC closeC : Char) (pos count : Nat) : Nat :=
  if h : pos < l.length ∧ count > 0 then
    let c := l.getD pos ' '
    let count' := if c = openC then count + 1 else if c = closeC then count - 1 else count
    findMatch l openC closeC (pos + 1) count'
  else pos
termination_by l.length - pos
decreasing_by omega

/-- The primitive scan of `FindValueEnd`: advance while the character is
none of `,`, `}`, `]`. -/
def primEnd (l : List Char) (pos : Nat) : Nat :=
  pos + ((l.drop pos).takeWhile
    (fun c => !(c == ',') && !(c == '}') && !(c == ']'))).length

/-- `JsonParser::FindValueEnd` (json_helper.cpp): one past the end of the
value starting at `start`. -/
def FindValueEnd (l : List Char) (start : Nat) : Nat :=
  if start ≥ l.length then start
  else
    let first_char := l.getD start ' '
    if first_char = '"' then
      match findFrom l '"' (start + 1) with
      | some e => e + 1
      | none => l.length
    else if first_char = '{' then findMatch l '{' '}' (start + 1) 1
    else if first_char = '[' then findMatch l '[' ']' (start + 1) 1
    else primEnd l start

/-- `JsonParser::ParseString`: the contents between the surrounding
quotes, or "" when not quote-delimited. -/
def ParseStringC (l : List Char) : List Char :=
  if l.length < 2 ∨ l.getD 0 ' ' ≠ '"' ∨ l.getLast? ≠ some '"' then []
  else substrC l 1 (l.length - 2)

/-- Value of a digit run. -/
def digitsVal (ds : List Char) : Nat :=
  ds.foldl (fun acc c => acc * 10 + (c.toNat - '0'.toNat)) 0

/-- `std::stoi` on trimmed input: optional sign then a digit prefix; fails
(throws, in C++) when no digit is parsed. -/
def stoiC (l : List Char) : Option Int :=
  let (neg, rest) :=
    match l with
    | '-' :: r => (true, r)
    | '+' :: r => (false, r)
    | r => (false, r)
  let digits := rest.takeWhile (fun c => c.isDigit)
  if digits = [] then none
  else some ((if neg then -1 else 1) * (digitsVal digits : Int))

/-- `std::stod` on trimmed input followed by `static_cast<int>`: decimal
forms only (sign, integer digits, optional fraction); truncation toward
zero keeps just the signed integer part.  Exponent/hex forms are not
modelled; no claim depends on numeric parsing. -/
def stodIntC (l : List Char) : Option Int :=
  let (neg, rest) :=
    match l with
    | '-' :: r => (true, r)
    | '+' :: r => (false, r)
    | r => (false, r)
  let intDigits := rest.takeWhile (fun c => c.isDigit)
  let rest2 := rest.drop intDigits.length
  let fracDigits :=
    match rest2 with
    | '.' :: r => r.takeWhile (fun c => c.isDigit)
    | _ => []
  if intDigits = [] ∧ fracDigits = [] then none
  else some ((if neg then -1 else 1) * (digitsVal intDigits : Int))

/-- The key/value loop of `ParseObject`.  `parse` is the recursive value
parse; `iter` bounds the iterations (the position strictly increases each
pass, so `content.length + 1` is never exhausted). -/
def parseObjLoop (parse : List Char → JsonValue) (content : List Char)
    (pos iter : Nat) (acc : List (String × JsonValue)) :
    List (String × JsonValue) :=
  match iter with
  | 0 => acc
  | iter' + 1 =>
    if pos ≥ content.length then acc
    else
      match findFrom content '"' pos with
      | none => acc
      | some key_start =>
        match findFrom content '"' (key_start + 1) with
        | none => acc
        | some key_end =>
          let key := String.mk (substrC content (key_start + 1) (key_end - key_start - 1))
          match findFrom content ':' key_end with
          | none => acc
          | some colon =>
            let pos1 := skipSpaces content (colon + 1)
            let value_end := FindValueEnd content pos1
            let value_str := trimC (substrC content pos1 (value_end - pos1))
            let value := parse value_str
            let acc' := insertKV acc key value
            match findFrom content ',' value_end with
            | some comma => parseObjLoop parse content (comma + 1) iter' acc'
            | none => acc'

/-- `JsonParser::ParseObject`: strip the braces, trim, run the key/value
loop. -/
def ParseObjectC (parse : List Char → JsonValue) (json : List Char) : JsonValue :=
  let content := trimC (substrC json 1 (json.length - 2))
  if content = [] then .mk .OBJECT false 0 "" [] []
  else .mk .OBJECT false 0 "" [] (parseObjLoop parse content 0 (content.length + 1) [])

/-- The element loop of `ParseArray`. -/
def parseArrLoop (parse : List Char → JsonValue) (content : List Char)
    (pos iter : Nat) (acc : List JsonValue) : List JsonValue :=
  match iter with
  | 0 => acc
  | iter' + 1 =>
    if pos ≥ content.length then acc
    else
      let pos1 := skipSpaces content pos
      let value_end := FindValueEnd content pos1
      let value_str := trimC (substrC content pos1 (value_end - pos1))
      let value := parse value_str
      let acc' := acc ++ [value]
      match findFrom content ',' value_end with
      | some comma => parseArrLoop parse content (comma + 1) iter' acc'
      | none => acc'

/-- `JsonParser::ParseArray`. -/
def ParseArrayC (parse : List Char → JsonValue) (json : List Char) : JsonValue :=
  let content := trimC (substrC json 1 (json.length - 2))
  if content = [] then .mk .ARRAY false 0 "" [] []
  else .mk .ARRAY false 0 "" (parseArrLoop parse content 0 (content.length + 1) []) []

/-- `JsonParser::Parse` over char lists, with a recursion-depth bound:
every nested value is at least two characters (its brackets) shorter than
its enclosing text, so `length + 1` fuel is never exhausted from the
top-level entry point. -/
def ParseC : Nat → List Char → JsonValue
  | 0, _ => JsonValue.defaultValue
  | fuel + 1, json =>
    let trimmed := trimC json
    if trimmed = [] then JsonValue.defaultValue
    else if trimmed.getD 0 ' ' = '{' then
      ParseObjectC (fun l => ParseC fuel l) trimmed
    else if trimmed.getD 0 ' ' = '[' then
      ParseArrayC (fun l => ParseC fuel l) trimmed
    else if trimmed.getD 0 ' ' = '"' then
      .mk .STRING false 0 (String.mk (ParseStringC trimmed)) [] []
    else if trimmed = "true".data ∨ trimmed = "false".data then
      .mk .BOOLEAN (trimmed == "true".data) 0 "" [] []
    else if trimmed = "null".data then JsonValue.defaultValue
    else if trimmed.contains '.' then
      match stodIntC trimmed with
      | some n => .mk .NUMBER false n "" [] []
      | none => JsonValue.defaultValue
    else
      match stoiC trimmed with
      | some n => .mk .NUMBER false n "" [] []
      | none => JsonValue.defaultValue

/-- `JsonParser::Parse` on a `std::string`. -/
def Parse (json : String) : JsonValue := ParseC (json.length + 1) json.data

end JsonParser

/-! ## Engine configuration (rtc_engine_impl.h / rtc_engine_impl.cpp) -/

/-- `RtcEngineImpl::Config` (rtc_engine_impl.h). -/
structure Config where
  app_id : String
  environment : String
  signaling_url : String
  stun_servers : List String
  turn_servers : List String
  audio_codec : String
  video_codec : String
  enable_hardware_acceleration : Bool
  enable_audio_processing : Bool
  connection_timeout_ms : Int
  enable_stats : Bool
  log_level : Int
deriving DecidableEq, Repr

/-- The body of `Config::FromJson` applied to the parsed root value.  The
C++ `try`/`catch` cannot fire in the embedding: the parser and the getters
are total (the C++ parser catches its own numeric-conversion exceptions),
so the `catch`-and-return-defaults branch is dead code. -/
def Config.fromRoot (root : JsonValue) : Config :=
  let environment := root.GetString "environment" "PRODUCTION"
  let signaling_url0 := root.GetString "signalingServerUrl" ""
  let stun_servers0 := root.GetStringArray "stunServers"
  let signaling_url :=
    if signaling_url0 = "" then
      if environment = "DEVELOPMENT" then "wss://dev-signaling.tasawwur-rtc.com/ws"
      else "wss://signaling.tasawwur-rtc.com/ws"
    else signaling_url0
  let stun_servers :=
    if stun_servers0 = [] then
      ["stun:stun.l.google.com:19302",
       "stun:stun1.l.google.com:19302",
       "stun:stun2.l.google.com:19302"]
    else stun_servers0
  { app_id := root.GetString "appId" ""
    environment := environment
    signaling_url := signaling_url
    stun_servers := stun_servers
    turn_servers := []
    audio_codec := root.GetString "audioCodec" "opus"
    video_codec := root.GetString "videoCodec" "H264"
    enable_hardware_acceleration := root.GetBool "enableHardwareAcceleration" true
    enable_audio_processing := root.GetBool "enableAudioProcessing" true
    connection_timeout_ms := root.GetInt "connectionTimeoutMs" 10000
    enable_stats := root.GetBool "enableStats" false
    log_level := root.GetInt "logLevel" 2 }

/-- `RtcEngineImpl::Config::FromJson` (rtc_engine_impl.cpp). -/
def Config.FromJson (json : String) : Config :=
  Config.fromRoot (JsonParser.Parse json)

/-- The configuration `FromJson` produces when the input does not parse to
an object: every field takes its coded default. -/
def Config.allDefaults : Config :=
  { app_id := ""
    environment := "PRODUCTION"
    signaling_url := "wss://signaling.tasawwur-rtc.com/ws"
    stun_servers := ["stun:stun.l.google.com:19302",
                     "stun:stun1.l.google.com:19302",
                     "stun:stun2.l.google.com:19302"]
    turn_servers := []
    audio_codec := "opus"
    video_codec := "H264"
    enable_hardware_acceleration := true
    enable_audio_processing := true
    connection_timeout_ms := 10000
    enable_stats := false
    log_level := 2 }

/-! ## Peer session negotiator (webrtc_wrapper.cpp, `WebRTCWrapper::Impl`) -/

/-- The mutable flags of `WebRTCWrapper::Impl`.  The ICE/codec `config_`
and the observer pointer carry no claim-relevant state and are omitted. -/
structure WrapperState where
  is_initialized : Bool
  peer_connection_created : Bool
  local_streams_added : Bool
  local_video_setup : Bool
  local_audio_muted : Bool
  local_video_enabled : Bool
deriving DecidableEq, Repr

/-- A freshly constructed `Impl`: the in-class initializers. -/
def WrapperState.initImpl : WrapperState :=
  { is_initialized := false
    peer_connection_created := false
    local_streams_added := false
    local_video_setup := false
    local_audio_muted := false
    local_video_enabled := true }

/-- `Impl::Initialize`: the stub always succeeds and sets the flag. -/
def WrapperState.Initialize (w : WrapperState) : WrapperState × Bool :=
  ({ w with is_initialized := true }, true)

/-- `Impl::ClosePeerConnection`: no-op without a peer connection; else
clears `peer_connection_created` and `local_streams_added`. -/
def WrapperState.ClosePeerConnection (w : WrapperState) : WrapperState :=
  if !w.peer_connection_created then w
  else { w with peer_connection_created := false, local_streams_added := false }

/-- `Impl::Cleanup`: close the peer connection if one exists, then clear
`is_initialized`. -/
def WrapperState.Cleanup (w : WrapperState) : WrapperState :=
  let w' := if w.peer_connection_created then WrapperState.ClosePeerConnection w else w
  { w' with is_initialized := false }

/-- `Impl::CreatePeerConnection`: fails (false) when not initialized, else
sets the flag and succeeds. -/
def WrapperState.CreatePeerConnection (w : WrapperState) : WrapperState × Bool :=
  if !w.is_initialized then (w, false)
  else ({ w with peer_connection_created := true }, true)

/-- `Impl::AddLocalStreams`: fails (false) without a peer connection, else
sets the flag and succeeds.  The detached `OnLocalStreamAdded` observer
notification carries no engine state and is not modelled. -/
def WrapperState.AddLocalStreams (w : WrapperState) : WrapperState × Bool :=
  if !w.peer_connection_created then (w, false)
  else ({ w with local_streams_added := true }, true)

/-- `Impl::RemoveLocalStreams`. -/
def WrapperState.RemoveLocalStreams (w : WrapperState) : WrapperState :=
  if !w.local_streams_added then w
  else { w with local_streams_added := false }

/-- `Impl::CreateOffer`: the pair is the `(sdp, success)` argument the
completion callback is invoked with (exactly once; asynchronously on
success, immediately on the missing-precondition path). -/
def WrapperState.CreateOffer (w : WrapperState) : WrapperState × (String × Bool) :=
  if !w.peer_connection_created then (w, ("", false))
  else (w, ("v=0\r\no=- 123456789 2 IN IP4 127.0.0.1\r\ns=-\r\nt=0 0\r\n", true))

/-- `Impl::CreateAnswer`. -/
def WrapperState.CreateAnswer (w : WrapperState) : WrapperState × (String × Bool) :=
  if !w.peer_connection_created then (w, ("", false))
  else (w, ("v=0\r\no=- 987654321 2 IN IP4 127.0.0.1\r\ns=-\r\nt=0 0\r\n", true))

/-- `Impl::SetLocalDescription`: performs no precondition check and always
invokes its callback with `true`. -/
def WrapperState.SetLocalDescription (w : WrapperState) (sdpType sdp : String) :
    WrapperState × Bool :=
  (w, true)

/-- `Impl::SetRemoteDescription`: likewise always completes with `true`. -/
def WrapperState.SetRemoteDescription (w : WrapperState) (sdpType sdp : String) :
    WrapperState × Bool :=
  (w, true)

/-- `Impl::IsConnected`: derived predicate. -/
def WrapperState.IsConnected (w : WrapperState) : Bool :=
  w.peer_connection_created && w.local_streams_added

/-- The negotiator lifecycle operations a caller can drive (claim C8). -/
inductive WrapperOp where
  | InitOp
  | CleanupOp
  | CreatePeerConnectionOp
  | ClosePeerConnectionOp
  | AddLocalStreamsOp
  | RemoveLocalStreamsOp
deriving DecidableEq, Repr

def applyWrapperOp (w : WrapperState) : WrapperOp → WrapperState
  | .InitOp => (WrapperState.Initialize w).1
  | .CleanupOp => WrapperState.Cleanup w
  | .CreatePeerConnectionOp => (WrapperState.CreatePeerConnection w).1
  | .ClosePeerConnectionOp => WrapperState.ClosePeerConnection w
  | .AddLocalStreamsOp => (WrapperState.AddLocalStreams w).1
  | .RemoveLocalStreamsOp => WrapperState.RemoveLocalStreams w

def runWrapperOps (w : WrapperState) : List WrapperOp → WrapperState
  | [] => w
  | op :: rest => runWrapperOps (applyWrapperOp w op) rest

/-- The strict ordering of the lifecycle flags:
local-streams-added ⊆ peer-connection-created ⊆ initialized. -/
def LifecycleInv (w : WrapperState) : Prop :=
  (w.local_streams_added = true → w.peer_connection_created = true) ∧
  (w.peer_connection_created = true → w.is_initialized = true)

instance (w : WrapperState) : Decidable (LifecycleInv w) := by
  unfold LifecycleInv; infer_instance

/-! ## Session orchestrator (rtc_engine_impl.cpp, `RtcEngineImpl`) -/

/-- `RtcEngineImpl::ConnectionState` (rtc_engine_impl.h). -/
inductive ConnectionState where
  | DISCONNECTED
  | CONNECTING
  | CONNECTED
  | RECONNECTING
  | FAILED
deriving DecidableEq, Repr

/-- The enum's numeric values (rtc_engine_impl.h), as passed to the sink by
`static_cast<int>`. -/
def ConnectionState.toInt : ConnectionState → Int
  | .DISCONNECTED => 1
  | .CONNECTING => 2
  | .CONNECTED => 3
  | .RECONNECTING => 4
  | .FAILED => 5

/-- One sink invocation dispatched through `InvokeCallback` (the
`RtcEngineImpl::Callback` methods the modelled operations reach). -/
inductive Event where
  | OnConnectionStateChanged (state reason : Int)
  | OnJoinChannelSuccess (channel user_id : String) (elapsed : Int)
  | OnLeaveChannel
deriving DecidableEq, Repr

/-- The claim-relevant state of one `RtcEngineImpl`: the connection-state
atomic, the membership triple, the owned negotiator (`none` = null
`webrtc_wrapper_`), and the trace of sink invocations dispatched so far.
The worker thread and `should_stop_` flag carry no state any claim
observes. -/
structure EngineState where
  connection_state : ConnectionState
  current_channel : String
  current_user_id : String
  current_token : String
  webrtc_wrapper : Option WrapperState
  events : List Event
deriving DecidableEq, Repr

/-- `RtcEngineImpl::IsInChannel`: the channel string is non-empty. -/
def EngineState.IsInChannel (s : EngineState) : Bool :=
  !(s.current_channel == "")

/-- `RtcEngineImpl::GetCurrentChannel`. -/
def EngineState.GetCurrentChannel (s : EngineState) : String :=
  s.current_channel

/-- `RtcEngineImpl::GetConnectionState`. -/
def EngineState.GetConnectionState (s : EngineState) : ConnectionState :=
  s.connection_state

/-- `RtcEngineImpl::SetConnectionState`: exchange the stored state, and
dispatch `OnConnectionStateChanged(new, reason)` iff the old value
differed. -/
def SetConnectionState (s : EngineState) (new_state : ConnectionState)
    (reason : Int) : EngineState :=
  let old_state := s.connection_state
  let s' := { s with connection_state := new_state }
  if old_state ≠ new_state then
    { s' with events :=
        s'.events ++ [Event.OnConnectionStateChanged new_state.toInt reason] }
  else s'

/-- The `catch` handler of `JoinChannel`: transition to FAILED (reason 5),
clear the membership triple, return -6. -/
def joinCatch (s : EngineState) : EngineState × Int :=
  let s' := SetConnectionState s ConnectionState.FAILED 5
  ({ s' with current_channel := "", current_user_id := "", current_token := "" }, -6)

/-- `RtcEngineImpl::JoinChannel`.  `exn = some k` injects a C++ exception
just before the k-th statement of the `try` block (0 = before the
Connecting transition, 1 = before the membership stores, 2 = before
`CreatePeerConnection`, 3 = before `AddLocalStreams`, 4 = before the
Connected transition, 5 = before the join-success dispatch); `none` is the
run in which nothing throws — the stub body itself never does. -/
def JoinChannel (s : EngineState) (token channel_name user_id : String)
    (exn : Option Nat) : EngineState × Int :=
  if s.IsInChannel then (s, -1)
  else
    match s.webrtc_wrapper with
    | none => (s, -2)
    | some w =>
      if token = "" ∨ channel_name = "" ∨ user_id = "" then (s, -3)
      else
        if exn = some 0 then joinCatch s else
        let s1 := SetConnectionState s ConnectionState.CONNECTING 1
        if exn = some 1 then joinCatch s1 else
        let s2 := { s1 with current_channel := channel_name,
                            current_user_id := user_id,
                            current_token := token }
        if exn = some 2 then joinCatch s2 else
        let p := WrapperState.CreatePeerConnection w
        let s3 := { s2 with webrtc_wrapper := some p.1 }
        if !p.2 then (SetConnectionState s3 ConnectionState.FAILED 5, -4) else
        if exn = some 3 then joinCatch s3 else
        let q := WrapperState.AddLocalStreams p.1
        let s4 := { s3 with webrtc_wrapper := some q.1 }
        if !q.2 then (SetConnectionState s4 ConnectionState.FAILED 5, -5) else
        if exn = some 4 then joinCatch s4 else
        let s5 := SetConnectionState s4 ConnectionState.CONNECTED 2
        if exn = some 5 then joinCatch s5 else
        let s6 := { s5 with events :=
          s5.events ++ [Event.OnJoinChannelSuccess channel_name user_id 100] }
        (s6, 0)

/-- `RtcEngineImpl::LeaveChannel`: success no-op when not in a channel;
otherwise stop the worker (not modelled), close the peer connection, clear
the membership triple, transition to DISCONNECTED (reason 6) and dispatch
`OnLeaveChannel`.  The `try` body is total in the embedding, so the
`catch`-return-(-1) branch is dead code. -/
def LeaveChannel (s : EngineState) : EngineState × Int :=
  if !s.IsInChannel then (s, 0)
  else
    let s1 :=
      match s.webrtc_wrapper with
      | some w => { s with webrtc_wrapper := some (WrapperState.ClosePeerConnection w) }
      | none => s
    let s2 := { s1 with current_channel := "", current_user_id := "", current_token := "" }
    let s3 := SetConnectionState s2 ConnectionState.DISCONNECTED 6
    ({ s3 with events := s3.events ++ [Event.OnLeaveChannel] }, 0)

/-- `RtcEngineImpl::RtcEngineImpl(config)`: fresh state, negotiator
constructed and initialized (the stub `Initialize` always succeeds, so the
construction-failure throw cannot fire). -/
def RtcEngineImpl.create (config : Config) : EngineState :=
  { connection_state := ConnectionState.DISCONNECTED
    current_channel := ""
    current_user_id := ""
    current_token := ""
    webrtc_wrapper := some (WrapperState.Initialize WrapperState.initImpl).1
    events := [] }

/-! ## Boundary registry (jni_interface.cpp) -/

/-- The anonymous-namespace globals of jni_interface.cpp: `g_next_handle`
(a `jlong`, starting at 1) and `g_engines` (handle → engine map, modelled
as an association list with distinct keys). -/
structure EngineRegistry where
  g_next_handle : Nat
  g_engines : List (Nat × EngineState)
deriving DecidableEq, Repr

/-- The registry at library load. -/
def initRegistry : EngineRegistry := { g_next_handle := 1, g_engines := [] }

/-- `nativeCreateEngine`: build the engine from the parsed config, allocate
`handle = g_next_handle++`, store the engine under it, return the handle. -/
def nativeCreateEngine (r : EngineRegistry) (config : Config) :
    EngineRegistry × Nat :=
  let engine := RtcEngineImpl.create config
  ({ g_next_handle := r.g_next_handle + 1
     g_engines := (r.g_next_handle, engine) :: r.g_engines },
   r.g_next_handle)

/-- `nativeDestroyEngine`: erase the handle's entry when present (a miss is
only logged).  `erase` on a distinct-key map equals removing every pair
with that key. -/
def nativeDestroyEngine (r : EngineRegistry) (handle : Nat) : EngineRegistry :=
  { g_next_handle := r.g_next_handle
    g_engines := r.g_engines.filter (fun p => p.1 ≠ handle) }

/-- `get_engine`: resolve a handle to its live engine, or null. -/
def get_engine (r : EngineRegistry) (handle : Nat) : Option EngineState :=
  match r.g_engines.find? (fun p => p.1 == handle) with
  | some p => some p.2
  | none => none

/-- The handle-scoped commands that mutate the registry itself. -/
inductive RegistryOp where
  | createOp (config : Config)
  | destroyOp (handle : Nat)

def applyRegistryOp (r : EngineRegistry) : RegistryOp → EngineRegistry
  | .createOp config => (nativeCreateEngine r config).1
  | .destroyOp handle => nativeDestroyEngine r handle

def runRegistry (r : EngineRegistry) : List RegistryOp → EngineRegistry
  | [] => r
  | op :: rest => runRegistry (applyRegistryOp r op) rest

/-- The handles returned by the create commands of a run, in order. -/
def issuedHandles (r : EngineRegistry) : List RegistryOp → List Nat
  | [] => []
  | .createOp config :: rest =>
      (nativeCreateEngine r config).2 ::
        issuedHandles (nativeCreateEngine r config).1 rest
  | .destroyOp handle :: rest => issuedHandles (nativeDestroyEngine r handle) rest

/-- Number of create commands in a run. -/
def countCreates : List RegistryOp → Nat
  | [] => 0
  | .createOp _ :: rest => countCreates rest + 1
  | .destroyOp _ :: rest => countCreates rest

/-- Registry invariant: every stored handle was allocated below the
next-handle counter. -/
def RegInv (r : EngineRegistry) : Prop :=
  ∀ p ∈ r.g_engines, p.1 < r.g_next_handle

/-- A concrete orchestrator already joined to channel "c", used to refute
C3 as universally stated. -/
def engineInChannelCex : EngineState :=
  { connection_state := ConnectionState.CONNECTED
    current_channel := "c"
    current_user_id := "u"
    current_token := "t"
    webrtc_wrapper := some
      { is_initialized := true
        peer_connection_created := true
        local_streams_added := true
        local_video_setup := false
        local_audio_muted := false
        local_video_enabled := true }
    events := [] }

/-! ## Helper lemmas -/

@[simp] lemma setCS_state (s : EngineState) (ns : ConnectionState) (r : Int) :
    (SetConnectionState s ns r).connection_state = ns := by
  unfold SetConnectionState; dsimp only; split <;> rfl

@[simp] lemma setCS_channel (s : EngineState) (ns : ConnectionState) (r : Int) :
    (SetConnectionState s ns r).current_channel = s.current_channel := by
  unfold SetConnectionState; dsimp only; split <;> rfl

@[simp] lemma setCS_user (s : EngineState) (ns : ConnectionState) (r : Int) :
    (SetConnectionState s ns r).current_user_id = s.current_user_id := by
  unfold SetConnectionState; dsimp only; split <;> rfl

@[simp] lemma setCS_token (s : EngineState) (ns : ConnectionState) (r : Int) :
    (SetConnectionState s ns r).current_token = s.current_token := by
  unfold SetConnectionState; dsimp only; split <;> rfl

@[simp] lemma setCS_wrapper (s : EngineState) (ns : ConnectionState) (r : Int) :
    (SetConnectionState s ns r).webrtc_wrapper = s.webrtc_wrapper := by
  unfold SetConnectionState; dsimp only; split <;> rfl

lemma setCS_events_changed (s : EngineState) (ns : ConnectionState) (r : Int)
    (h : s.connection_state ≠ ns) :
    (SetConnectionState s ns r).events =
      s.events ++ [Event.OnConnectionStateChanged ns.toInt r] := by
  unfold SetConnectionState; simp [h]

lemma setCS_idempotent (s : EngineState) (ns : ConnectionState) (r : Int)
    (h : s.connection_state = ns) :
    SetConnectionState s ns r = s := by
  unfold SetConnectionState
  subst h
  simp

/-! ## Claim theorems -/

/-- C4: `SetConnectionState(new_state, reason)` stores `new_state`, and the
sink's `onConnectionStateChanged(new_state, reason)` is dispatched (with
the reason forwarded unmodified) iff the previously stored state differed;
on an idempotent set the state (trace included) is entirely unchanged. -/
theorem setConnectionState_spec (s : EngineState) (ns : ConnectionState) (reason : Int) :
    (SetConnectionState s ns reason).connection_state = ns ∧
    (s.connection_state ≠ ns →
      (SetConnectionState s ns reason).events =
        s.events ++ [Event.OnConnectionStateChanged ns.toInt reason]) ∧
    (s.connection_state = ns → SetConnectionState s ns reason = s) :=
  ⟨setCS_state s ns reason, setCS_events_changed s ns reason,
   setCS_idempotent s ns reason⟩

/-- C4 witness: a concrete changing transition appends exactly the event
carrying the cast state and the verbatim reason. -/
theorem setConnectionState_spec_witness :
    (SetConnectionState (RtcEngineImpl.create Config.allDefaults)
        ConnectionState.CONNECTING 7).events =
      [Event.OnConnectionStateChanged 2 7] := by
  have h := (setConnectionState_spec (RtcEngineImpl.create Config.allDefaults)
    ConnectionState.CONNECTING 7).2.1 (by decide)
  simpa [RtcEngineImpl.create, ConnectionState.toInt] using h

/-- C9: `LeaveChannel` on an orchestrator that is not in a channel returns
the success code 0 and leaves the state — connection state, membership and
event trace — entirely unchanged (so no event is emitted). -/
theorem leaveChannel_not_joined (s : EngineState) (h : s.IsInChannel = false) :
    LeaveChannel s = (s, 0) := by
  unfold LeaveChannel
  simp [h]

/-- C9 witness: a freshly created orchestrator. -/
theorem leaveChannel_not_joined_witness :
    LeaveChannel (RtcEngineImpl.create Config.allDefaults) =
      (RtcEngineImpl.create Config.allDefaults, 0) :=
  leaveChannel_not_joined (RtcEngineImpl.create Config.allDefaults) (by decide)

lemma fromRoot_defaults (root : JsonValue) (h : root.type ≠ JType.OBJECT) :
    Config.fromRoot root = Config.allDefaults := by
  unfold Config.fromRoot JsonValue.GetString JsonValue.GetInt JsonValue.GetBool
    JsonValue.GetStringArray
  simp [h, Config.allDefaults]

/-- C6: for every input that is empty or does not parse to a configuration
object, `Config::FromJson` yields the all-defaults configuration —
environment "PRODUCTION", the production signaling URL, the fixed
three-entry STUN list, opus/H264, hardware acceleration and audio
processing on, 10000 ms timeout, stats off, log level 2.  No exception
escapes: the embedded parser and getters are total, mirroring the
`try`/`catch` containment in the source. -/
theorem fromJson_unparseable_defaults (json : String)
    (h : json = "" ∨ (JsonParser.Parse json).type ≠ JType.OBJECT) :
    Config.FromJson json = Config.allDefaults := by
  rcases h with h | h
  · subst h; rfl
  · exact fromRoot_defaults _ h

/-- C6 witness: a concrete unparseable input. -/
theorem fromJson_unparseable_defaults_witness :
    Config.FromJson "not a config object" = Config.allDefaults :=
  fromJson_unparseable_defaults "not a config object" (Or.inr (by decide))

/-- C7 counterexample: with no peer connection created (a fresh negotiator),
`SetLocalDescription` invokes its completion callback with success (`true`)
rather than failing fast, so the claimed precondition check does not exist
for this operation. -/
theorem setLocalDescription_no_precheck :
    WrapperState.initImpl.peer_connection_created = false ∧
    WrapperState.SetLocalDescription WrapperState.initImpl "offer" "sdp" =
      (WrapperState.initImpl, true) ∧
    (WrapperState.SetLocalDescription WrapperState.initImpl "offer" "sdp").2 ≠ false := by
  refine ⟨rfl, rfl, by decide⟩

/-- C7 (amended): `CreatePeerConnection` fails fast (returns false) when
not initialized, and `AddLocalStreams`, `CreateOffer` and `CreateAnswer`
fail fast (false, or an immediate `("", false)` completion) without a
created peer connection, all leaving the lifecycle flags unchanged; but
`SetLocalDescription` and `SetRemoteDescription` perform no precondition
check at all and always complete with success (flags still unchanged). -/
theorem negotiator_fail_fast (w : WrapperState) (sdpType sdp : String) :
    (w.is_initialized = false → WrapperState.CreatePeerConnection w = (w, false)) ∧
    (w.peer_connection_created = false → WrapperState.AddLocalStreams w = (w, false)) ∧
    (w.peer_connection_created = false → WrapperState.CreateOffer w = (w, ("", false))) ∧
    (w.peer_connection_created = false → WrapperState.CreateAnswer w = (w, ("", false))) ∧
    WrapperState.SetLocalDescription w sdpType sdp = (w, true) ∧
    WrapperState.SetRemoteDescription w sdpType sdp = (w, true) := by
  refine ⟨?_, ?_, ?_, ?_, rfl, rfl⟩ <;> intro h <;>
    simp [WrapperState.CreatePeerConnection, WrapperState.AddLocalStreams,
      WrapperState.CreateOffer, WrapperState.CreateAnswer, h]

/-- C7 witness: the fail-fast paths at the fresh negotiator. -/
theorem negotiator_fail_fast_witness :
    WrapperState.CreatePeerConnection WrapperState.initImpl =
      (WrapperState.initImpl, false) ∧
    WrapperState.CreateOffer WrapperState.initImpl =
      (WrapperState.initImpl, ("", false)) :=
  ⟨(negotiator_fail_fast WrapperState.initImpl "offer" "s").1 rfl,
   (negotiator_fail_fast WrapperState.initImpl "offer" "s").2.2.1 rfl⟩

lemma lifecycleInv_applyOp (w : WrapperState) (op : WrapperOp)
    (h : LifecycleInv w) : LifecycleInv (applyWrapperOp w op) := by
  obtain ⟨i, pc, ls, lv, lm, le⟩ := w
  cases op <;> cases i <;> cases pc <;> cases ls <;> cases lv <;> cases lm <;>
    cases le <;> revert h <;> decide

lemma lifecycleInv_run (w : WrapperState) (h : LifecycleInv w)
    (ops : List WrapperOp) : LifecycleInv (runWrapperOps w ops) := by
  induction ops generalizing w with
  | nil => exact h
  | cons op rest ih => exact ih _ (lifecycleInv_applyOp w op h)

/-- C8: every sequence of negotiator lifecycle operations from the fresh
state preserves streams-added ⊆ peer-connection-created ⊆ initialized, and
teardown unwinds in reverse order: `ClosePeerConnection` clears the two
later flags (streams, then the peer connection, leaving `is_initialized`
untouched and the invariant intact), and `Cleanup` is exactly
`ClosePeerConnection` followed by clearing `is_initialized`. -/
theorem wrapper_lifecycle_inv (ops : List WrapperOp) :
    LifecycleInv (runWrapperOps WrapperState.initImpl ops) ∧
    (∀ w : WrapperState, LifecycleInv w →
      (WrapperState.ClosePeerConnection w).peer_connection_created = false ∧
      (WrapperState.ClosePeerConnection w).local_streams_added = false ∧
      (WrapperState.ClosePeerConnection w).is_initialized = w.is_initialized ∧
      LifecycleInv (WrapperState.ClosePeerConnection w)) ∧
    (∀ w : WrapperState,
      WrapperState.Cleanup w =
        { WrapperState.ClosePeerConnection w with is_initialized := false }) := by
  refine ⟨lifecycleInv_run WrapperState.initImpl (by decide) ops, ?_, ?_⟩
  · intro w hw
    obtain ⟨i, pc, ls, lv, lm, le⟩ := w
    revert hw
    cases i <;> cases pc <;> cases ls <;> cases lv <;> cases lm <;> cases le <;> decide
  · intro w
    obtain ⟨i, pc, ls, lv, lm, le⟩ := w
    cases pc <;> rfl

/-- C8 witness: a full join-then-teardown sequence keeps the invariant, and
the teardown decomposition at a fully set-up negotiator. -/
theorem wrapper_lifecycle_inv_witness :
    LifecycleInv (runWrapperOps WrapperState.initImpl
      [WrapperOp.InitOp, WrapperOp.CreatePeerConnectionOp,
       WrapperOp.AddLocalStreamsOp, WrapperOp.CleanupOp]) ∧
    (WrapperState.ClosePeerConnection
      (runWrapperOps WrapperState.initImpl
        [WrapperOp.InitOp, WrapperOp.CreatePeerConnectionOp,
         WrapperOp.AddLocalStreamsOp])).peer_connection_created = false :=
  ⟨(wrapper_lifecycle_inv
      [WrapperOp.InitOp, WrapperOp.CreatePeerConnectionOp,
       WrapperOp.AddLocalStreamsOp, WrapperOp.CleanupOp]).1,
   ((wrapper_lifecycle_inv []).2.1
      (runWrapperOps WrapperState.initImpl
        [WrapperOp.InitOp, WrapperOp.CreatePeerConnectionOp,
         WrapperOp.AddLocalStreamsOp]) (by decide)).1⟩

/-- C1: from Disconnected with no channel joined and a live (initialized)
negotiator, `JoinChannel` with non-empty token/channel/user returns 0,
after which `IsInChannel()` is true, `GetCurrentChannel()` is the channel
argument, the connection state is Connected, and the sink received exactly
one `onConnectionStateChanged` to Connecting, then one to Connected, then
one `onJoinChannelSuccess(channel, user, elapsed ≥ 0)`, in that order. -/
theorem joinChannel_success_trace (s : EngineState) (w : WrapperState)
    (token channel_name user_id : String)
    (hdisc : s.connection_state = ConnectionState.DISCONNECTED)
    (hchan : s.current_channel = "")
    (hw : s.webrtc_wrapper = some w)
    (hinit : w.is_initialized = true)
    (ht : token ≠ "") (hc : channel_name ≠ "") (hu : user_id ≠ "") :
    (JoinChannel s token channel_name user_id none).2 = 0 ∧
    (JoinChannel s token channel_name user_id none).1.IsInChannel = true ∧
    (JoinChannel s token channel_name user_id none).1.GetCurrentChannel =
      channel_name ∧
    (JoinChannel s token channel_name user_id none).1.GetConnectionState =
      ConnectionState.CONNECTED ∧
    (JoinChannel s token channel_name user_id none).1.events =
      s.events ++
        [Event.OnConnectionStateChanged ConnectionState.CONNECTING.toInt 1,
         Event.OnConnectionStateChanged ConnectionState.CONNECTED.toInt 2,
         Event.OnJoinChannelSuccess channel_name user_id 100] ∧
    (100 : Int) ≥ 0 := by
  unfold JoinChannel
  simp only [hw, hchan, EngineState.IsInChannel, EngineState.GetCurrentChannel,
    EngineState.GetConnectionState]
  simp [ht, hc, hu, hdisc, hinit, SetConnectionState, joinCatch,
    WrapperState.CreatePeerConnection, WrapperState.AddLocalStreams,
    EngineState.IsInChannel, hchan, ConnectionState.toInt, hc]

/-- C1 witness: a freshly created orchestrator joining ("t", "c", "u"). -/
theorem joinChannel_success_trace_witness :
    (JoinChannel (RtcEngineImpl.create Config.allDefaults) "t" "c" "u" none).2 = 0 ∧
    (JoinChannel (RtcEngineImpl.create Config.allDefaults) "t" "c" "u" none).1.events =
      [Event.OnConnectionStateChanged 2 1,
       Event.OnConnectionStateChanged 3 2,
       Event.OnJoinChannelSuccess "c" "u" 100] := by
  have h := joinChannel_success_trace (RtcEngineImpl.create Config.allDefaults)
    (WrapperState.Initialize WrapperState.initImpl).1 "t" "c" "u"
    rfl rfl rfl rfl (by decide) (by decide) (by decide)
  exact ⟨h.1, by simpa [RtcEngineImpl.create, ConnectionState.toInt] using h.2.2.2.2.1⟩

lemma joinCatch_fields (x : EngineState) :
    (joinCatch x).2 = -6 ∧
    (joinCatch x).1.connection_state = ConnectionState.FAILED ∧
    (joinCatch x).1.current_channel = "" ∧
    (joinCatch x).1.current_user_id = "" ∧
    (joinCatch x).1.current_token = "" := by
  unfold joinCatch
  simp

lemma joinChannel_master (s : EngineState) (t c u : String) (exn : Option Nat) :
    (JoinChannel s t c u exn = (s, -1) ∧ s.IsInChannel = true) ∨
    (JoinChannel s t c u exn = (s, -2) ∧ s.IsInChannel = false ∧
      s.webrtc_wrapper = none) ∨
    (JoinChannel s t c u exn = (s, -3) ∧ s.IsInChannel = false ∧
      s.webrtc_wrapper ≠ none ∧ (t = "" ∨ c = "" ∨ u = "")) ∨
    ((JoinChannel s t c u exn).2 = -4 ∧
      (JoinChannel s t c u exn).1.connection_state = ConnectionState.FAILED ∧
      (JoinChannel s t c u exn).1.current_channel = c ∧
      (JoinChannel s t c u exn).1.current_user_id = u ∧
      (JoinChannel s t c u exn).1.current_token = t) ∨
    ((JoinChannel s t c u exn).2 = -6 ∧
      (JoinChannel s t c u exn).1.connection_state = ConnectionState.FAILED ∧
      (JoinChannel s t c u exn).1.current_channel = "" ∧
      (JoinChannel s t c u exn).1.current_user_id = "" ∧
      (JoinChannel s t c u exn).1.current_token = "") ∨
    (JoinChannel s t c u exn).2 = 0 := by
  by_cases h1 : s.IsInChannel = true
  · exact Or.inl ⟨by unfold JoinChannel; simp [h1], h1⟩
  · replace h1 : s.IsInChannel = false := by simpa using h1
    rcases hw : s.webrtc_wrapper with _ | w
    · exact Or.inr (Or.inl ⟨by unfold JoinChannel; simp [h1, hw], h1, rfl⟩)
    · by_cases hv : t = "" ∨ c = "" ∨ u = ""
      · refine Or.inr (Or.inr (Or.inl ⟨?_, h1, by simp [hw], hv⟩))
        unfold JoinChannel; simp [h1, hw, hv]
      · by_cases e0 : exn = some 0
        · refine Or.inr (Or.inr (Or.inr (Or.inr (Or.inl ?_))))
          unfold JoinChannel joinCatch
          simp [h1, hw, hv, e0]
        · by_cases e1 : exn = some 1
          · refine Or.inr (Or.inr (Or.inr (Or.inr (Or.inl ?_))))
            unfold JoinChannel joinCatch
            simp [h1, hw, hv, e0, e1]
          · by_cases e2 : exn = some 2
            · refine Or.inr (Or.inr (Or.inr (Or.inr (Or.inl ?_))))
              unfold JoinChannel joinCatch
              simp [h1, hw, hv, e0, e1, e2]
            · by_cases hwi : w.is_initialized = true
              · by_cases e3 : exn = some 3
                · refine Or.inr (Or.inr (Or.inr (Or.inr (Or.inl ?_))))
                  unfold JoinChannel joinCatch
                  simp [h1, hw, hv, e0, e1, e2, e3, hwi,
                    WrapperState.CreatePeerConnection]
                · by_cases e4 : exn = some 4
                  · refine Or.inr (Or.inr (Or.inr (Or.inr (Or.inl ?_))))
                    unfold JoinChannel joinCatch
                    simp [h1, hw, hv, e0, e1, e2, e3, e4, hwi,
                      WrapperState.CreatePeerConnection, WrapperState.AddLocalStreams]
                  · by_cases e5 : exn = some 5
                    · refine Or.inr (Or.inr (Or.inr (Or.inr (Or.inl ?_))))
                      unfold JoinChannel joinCatch
                      simp [h1, hw, hv, e0, e1, e2, e3, e4, e5, hwi,
                        WrapperState.CreatePeerConnection, WrapperState.AddLocalStreams]
                    · refine Or.inr (Or.inr (Or.inr (Or.inr (Or.inr ?_))))
                      unfold JoinChannel
                      simp [h1, hw, hv, e0, e1, e2, e3, e4, e5, hwi,
                        WrapperState.CreatePeerConnection, WrapperState.AddLocalStreams]
              · replace hwi : w.is_initialized = false := by simpa using hwi
                refine Or.inr (Or.inr (Or.inr (Or.inl ?_)))
                unfold JoinChannel
                simp [h1, hw, hv, e0, e1, e2, hwi,
                  WrapperState.CreatePeerConnection]


/-- C2: inside `JoinChannel`, every failure taken after the Connecting
transition ends in state Failed with its own distinct non-zero code, and
the rollback is asymmetric: the negotiation failures (-4 for
`CreatePeerConnection`, -5 for `AddLocalStreams`) leave the membership
triple populated with the call's arguments, while the exception path (-6)
clears all three membership fields. -/
theorem joinChannel_failure_asymmetry (s : EngineState)
    (token channel_name user_id : String) (exn : Option Nat) :
    (((JoinChannel s token channel_name user_id exn).2 = -4 ∨
      (JoinChannel s token channel_name user_id exn).2 = -5) →
      (JoinChannel s token channel_name user_id exn).1.connection_state =
        ConnectionState.FAILED ∧
      (JoinChannel s token channel_name user_id exn).1.current_channel = channel_name ∧
      (JoinChannel s token channel_name user_id exn).1.current_user_id = user_id ∧
      (JoinChannel s token channel_name user_id exn).1.current_token = token) ∧
    ((JoinChannel s token channel_name user_id exn).2 = -6 →
      (JoinChannel s token channel_name user_id exn).1.connection_state =
        ConnectionState.FAILED ∧
      (JoinChannel s token channel_name user_id exn).1.current_channel = "" ∧
      (JoinChannel s token channel_name user_id exn).1.current_user_id = "" ∧
      (JoinChannel s token channel_name user_id exn).1.current_token = "") := by
  refine ⟨fun h => ?_, fun h => ?_⟩ <;>
    rcases joinChannel_master s token channel_name user_id exn with
      ⟨hJ, h_⟩ | ⟨hJ, h_, h__⟩ | ⟨hJ, h_, h__, h___⟩ | ⟨h4, hf⟩ | ⟨h6, hf⟩ | h0 <;>
    first
      | exact hf
      | (rw [hJ] at h; simp at h)
      | (rcases h with h | h <;> rw [h4] at h <;> simp at h)
      | (rw [h4] at h; simp at h)
      | (rcases h with h | h <;> rw [h6] at h <;> simp at h)
      | (rw [h6] at h; simp at h)
      | (rcases h with h | h <;> rw [h0] at h <;> simp at h)
      | (rw [h0] at h; simp at h)

/-- C2 witness: a negotiator that was never initialized makes
`CreatePeerConnection` fail, and the -4 path keeps the stored membership. -/
theorem joinChannel_failure_asymmetry_witness :
    (JoinChannel
      { connection_state := ConnectionState.DISCONNECTED, current_channel := "",
        current_user_id := "", current_token := "",
        webrtc_wrapper := some WrapperState.initImpl, events := [] }
      "t" "c" "u" none).1.connection_state = ConnectionState.FAILED ∧
    (JoinChannel
      { connection_state := ConnectionState.DISCONNECTED, current_channel := "",
        current_user_id := "", current_token := "",
        webrtc_wrapper := some WrapperState.initImpl, events := [] }
      "t" "c" "u" none).1.current_channel = "c" ∧
    (JoinChannel
      { connection_state := ConnectionState.DISCONNECTED, current_channel := "",
        current_user_id := "", current_token := "",
        webrtc_wrapper := some WrapperState.initImpl, events := [] }
      "t" "c" "u" none).1.current_user_id = "u" ∧
    (JoinChannel
      { connection_state := ConnectionState.DISCONNECTED, current_channel := "",
        current_user_id := "", current_token := "",
        webrtc_wrapper := some WrapperState.initImpl, events := [] }
      "t" "c" "u" none).1.current_token = "t" :=
  (joinChannel_failure_asymmetry
    { connection_state := ConnectionState.DISCONNECTED, current_channel := "",
      current_user_id := "", current_token := "",
      webrtc_wrapper := some WrapperState.initImpl, events := [] }
    "t" "c" "u" none).1 (Or.inl (by decide))

/-- C10: the already-joined check (and the missing-negotiator check)
precede parameter validation in `JoinChannel`: while in a channel every
call returns -1 whatever its arguments, an empty-argument call returns -1
or -2 or -3 depending solely on prior state, and -3 arises only when no
channel is joined and the negotiator exists. -/
theorem joinChannel_check_order (s : EngineState)
    (token channel_name user_id : String) (exn : Option Nat) :
    (s.IsInChannel = true →
      JoinChannel s token channel_name user_id exn = (s, -1)) ∧
    ((token = "" ∨ channel_name = "" ∨ user_id = "") →
      (JoinChannel s token channel_name user_id exn).2 =
        if s.IsInChannel then -1
        else if s.webrtc_wrapper = none then -2
        else -3) ∧
    ((JoinChannel s token channel_name user_id exn).2 = -3 →
      s.IsInChannel = false ∧ s.webrtc_wrapper ≠ none) := by
  refine ⟨?_, ?_, ?_⟩
  · intro h
    unfold JoinChannel
    simp [h]
  · intro he
    by_cases h1 : s.IsInChannel = true
    · unfold JoinChannel
      simp [h1]
    · replace h1 : s.IsInChannel = false := by simpa using h1
      rcases hw : s.webrtc_wrapper with _ | w
      · unfold JoinChannel
        simp [h1, hw]
      · unfold JoinChannel
        simp [h1, hw, he]
  · intro h3
    rcases joinChannel_master s token channel_name user_id exn with
      ⟨hJ, h_⟩ | ⟨hJ, h_, h__⟩ | ⟨hJ, hin, hwne, h_⟩ | ⟨h4, hf⟩ | ⟨h6, hf⟩ | h0
    · rw [hJ] at h3; simp at h3
    · rw [hJ] at h3; simp at h3
    · exact ⟨hin, hwne⟩
    · rw [h4] at h3; simp at h3
    · rw [h6] at h3; simp at h3
    · rw [h0] at h3; simp at h3

/-- C10 witness: the same empty-argument call yields -1 when already in a
channel and -3 on a fresh orchestrator. -/
theorem joinChannel_check_order_witness :
    JoinChannel
      { connection_state := ConnectionState.CONNECTED, current_channel := "c",
        current_user_id := "u", current_token := "t",
        webrtc_wrapper := some WrapperState.initImpl, events := [] }
      "" "" "" none =
      ({ connection_state := ConnectionState.CONNECTED, current_channel := "c",
         current_user_id := "u", current_token := "t",
         webrtc_wrapper := some WrapperState.initImpl, events := [] }, -1) ∧
    (JoinChannel (RtcEngineImpl.create Config.allDefaults) "" "" "" none).2 = -3 := by
  constructor
  · exact (joinChannel_check_order
      { connection_state := ConnectionState.CONNECTED, current_channel := "c",
        current_user_id := "u", current_token := "t",
        webrtc_wrapper := some WrapperState.initImpl, events := [] }
      "" "" "" none).1 (by decide)
  · have h := (joinChannel_check_order (RtcEngineImpl.create Config.allDefaults)
      "" "" "" none).2.1 (Or.inl rfl)
    simpa [RtcEngineImpl.create] using h

/-- C3 counterexample: a `JoinChannel` call with all three arguments empty
on an orchestrator already in a channel returns the already-joined code -1,
not the validation-error code -3, so the claim's unconditional "every call
with an empty argument returns the validation-error code and leaves the
state Disconnected" is false. -/
theorem joinChannel_empty_args_cex :
    (JoinChannel engineInChannelCex "" "" "" none).2 = -1 ∧ ((-1 : Int) ≠ -3) :=
  ⟨by decide, by decide⟩

/-- C3 (amended): when no channel is joined and the negotiator exists, a
`JoinChannel` call with any empty argument returns the validation-error
code -3 and leaves the whole state unchanged (so the connection state — in
particular Disconnected — and every membership field are untouched);
with a channel already joined the same call returns -1 instead. -/
theorem joinChannel_validation (s : EngineState)
    (token channel_name user_id : String) (exn : Option Nat)
    (hns : s.IsInChannel = false) (hw : s.webrtc_wrapper ≠ none)
    (he : token = "" ∨ channel_name = "" ∨ user_id = "") :
    JoinChannel s token channel_name user_id exn = (s, -3) := by
  unfold JoinChannel
  rcases hww : s.webrtc_wrapper with _ | w
  · exact absurd hww hw
  · simp [hns, he]

/-- C3 witness: a fresh orchestrator with an empty token. -/
theorem joinChannel_validation_witness :
    JoinChannel (RtcEngineImpl.create Config.allDefaults) "" "c" "u" none =
      (RtcEngineImpl.create Config.allDefaults, -3) :=
  joinChannel_validation (RtcEngineImpl.create Config.allDefaults) "" "c" "u" none
    (by decide) (by decide) (Or.inl rfl)

lemma get_engine_none_iff (r : EngineRegistry) (h : Nat) :
    get_engine r h = none ↔ ∀ p ∈ r.g_engines, p.1 ≠ h := by
  unfold get_engine
  cases hf : r.g_engines.find? (fun p => p.1 == h) with
  | none =>
    rw [List.find?_eq_none] at hf
    simp only [true_iff]
    intro p hp
    simpa using hf p hp
  | some p =>
    have hmem := List.mem_of_find?_eq_some hf
    have hpe : p.1 = h := by simpa using List.find?_some hf
    constructor
    · intro hcontr
      exact absurd hcontr (by simp)
    · intro hall
      exact absurd hpe (hall p hmem)

lemma regInv_apply (r : EngineRegistry) (op : RegistryOp) (h : RegInv r) :
    RegInv (applyRegistryOp r op) := by
  cases op with
  | createOp config =>
    intro p hp
    simp only [applyRegistryOp, nativeCreateEngine, List.mem_cons] at hp ⊢
    rcases hp with rfl | hp
    · simp
    · exact Nat.lt_succ_of_lt (h p hp)
  | destroyOp handle =>
    intro p hp
    simp only [applyRegistryOp, nativeDestroyEngine] at hp ⊢
    exact h p (List.mem_filter.mp hp).1

lemma regInv_run (r : EngineRegistry) (h : RegInv r) (ops : List RegistryOp) :
    RegInv (runRegistry r ops) := by
  induction ops generalizing r with
  | nil => exact h
  | cons op rest ih => exact ih _ (regInv_apply r op h)

lemma next_mono_apply (r : EngineRegistry) (op : RegistryOp) :
    r.g_next_handle ≤ (applyRegistryOp r op).g_next_handle := by
  cases op <;> simp [applyRegistryOp, nativeCreateEngine, nativeDestroyEngine]

lemma get_engine_none_of_ge (r : EngineRegistry) (h : Nat) (hinv : RegInv r)
    (hge : r.g_next_handle ≤ h) : get_engine r h = none := by
  rw [get_engine_none_iff]
  intro p hp
  have := hinv p hp
  omega

lemma get_engine_destroy_self (r : EngineRegistry) (h : Nat) :
    get_engine (nativeDestroyEngine r h) h = none := by
  rw [get_engine_none_iff]
  intro p hp
  simp only [nativeDestroyEngine] at hp
  simpa using (List.mem_filter.mp hp).2

lemma get_engine_none_persists_apply (r : EngineRegistry) (h : Nat)
    (op : RegistryOp) (hlt : h < r.g_next_handle)
    (hnone : get_engine r h = none) :
    get_engine (applyRegistryOp r op) h = none := by
  rw [get_engine_none_iff] at hnone ⊢
  cases op with
  | createOp config =>
    intro p hp
    simp only [applyRegistryOp, nativeCreateEngine, List.mem_cons] at hp
    rcases hp with rfl | hp
    · simp only []
      omega
    · exact hnone p hp
  | destroyOp hd =>
    intro p hp
    simp only [applyRegistryOp, nativeDestroyEngine] at hp
    exact hnone p (List.mem_filter.mp hp).1

lemma get_engine_none_persists (r : EngineRegistry) (h : Nat)
    (ops : List RegistryOp) (hlt : h < r.g_next_handle)
    (hnone : get_engine r h = none) :
    get_engine (runRegistry r ops) h = none := by
  induction ops generalizing r with
  | nil => exact hnone
  | cons op rest ih =>
    exact ih _ (lt_of_lt_of_le hlt (next_mono_apply r op))
      (get_engine_none_persists_apply r h op hlt hnone)

lemma issuedHandles_eq_range' (r : EngineRegistry) (ops : List RegistryOp) :
    issuedHandles r ops = List.range' r.g_next_handle (countCreates ops) := by
  induction ops generalizing r with
  | nil => rfl
  | cons op rest ih =>
    cases op with
    | createOp config =>
      simp only [issuedHandles, countCreates, List.range'_succ, ih]
      simp [nativeCreateEngine]
    | destroyOp hd =>
      simp only [issuedHandles, countCreates, ih, nativeDestroyEngine]

/-- C5: starting from the load-time registry, the create commands of any
command sequence allocate the handles 1, 2, 3, … in order (strictly
increasing, never reusing any value, destroyed or not); resolving a handle
the counter never issued gives null; resolving a handle right after its
entry is destroyed gives null; and a handle that resolves to null while
below the counter (e.g. a destroyed one) still resolves to null after any
further command sequence — never a live or stale engine. -/
theorem registry_handle_safety (ops ops2 : List RegistryOp) (h : Nat) :
    issuedHandles initRegistry ops = List.range' 1 (countCreates ops) ∧
    (issuedHandles initRegistry ops).Nodup ∧
    ((runRegistry initRegistry ops).g_next_handle ≤ h →
      get_engine (runRegistry initRegistry ops) h = none) ∧
    get_engine (nativeDestroyEngine (runRegistry initRegistry ops) h) h = none ∧
    (get_engine (runRegistry initRegistry ops) h = none →
      h < (runRegistry initRegistry ops).g_next_handle →
      get_engine (runRegistry (runRegistry initRegistry ops) ops2) h = none) := by
  have hinv : RegInv (runRegistry initRegistry ops) :=
    regInv_run initRegistry (by intro p hp; simp [initRegistry] at hp) ops
  refine ⟨issuedHandles_eq_range' initRegistry ops, ?_, ?_, ?_, ?_⟩
  · rw [issuedHandles_eq_range' initRegistry ops]
    exact List.nodup_range' _ _
  · exact fun hge => get_engine_none_of_ge _ h hinv hge
  · exact get_engine_destroy_self _ h
  · exact fun hnone hlt => get_engine_none_persists _ h ops2 hlt hnone

/-- C5 witness: create then destroy handle 1; it resolves to null and stays
null after another create (which allocates the fresh handle 2). -/
theorem registry_handle_safety_witness :
    issuedHandles initRegistry
      [RegistryOp.createOp Config.allDefaults, RegistryOp.destroyOp 1] =
      [1] ∧
    get_engine
      (runRegistry
        (runRegistry initRegistry
          [RegistryOp.createOp Config.allDefaults, RegistryOp.destroyOp 1])
        [RegistryOp.createOp Config.allDefaults]) 1 = none := by
  constructor
  · exact (registry_handle_safety
      [RegistryOp.createOp Config.allDefaults, RegistryOp.destroyOp 1] [] 1).1
  · exact (registry_handle_safety
      [RegistryOp.createOp Config.allDefaults, RegistryOp.destroyOp 1]
      [RegistryOp.createOp Config.allDefaults] 1).2.2.2.2 (by rfl) (by decide)

end TasawwurRTC
